import Mathlib

/-!
Verification of the orbital-elements core (`orbital/elements.py`) against its
specification.  The Python source works with real-valued scalars and 3-vectors
(numpy arrays); we embed it shallowly over `ℝ`, with machine floats read as
exact reals.  Functions imported from `orbital.utilities` (not part of the
sources under verification) are modelled from the specification, as marked in
their doc comments; the external Kepler-equation solver is kept as an explicit
function parameter `solver`.
-/

namespace Orbital

noncomputable section

open Real

/-- A 3-vector, mirroring the numpy arrays `[x, y, z]` used by the source. -/
structure Vec3 where
  x : ℝ
  y : ℝ
  z : ℝ

/-- Dot product, as `scipy.dot` on 3-vectors. -/
def dot (a b : Vec3) : ℝ := a.x * b.x + a.y * b.y + a.z * b.z

/-- Cross product, as `scipy.cross` on 3-vectors. -/
def cross (a b : Vec3) : Vec3 :=
  ⟨a.y * b.z - a.z * b.y, a.z * b.x - a.x * b.z, a.x * b.y - a.y * b.x⟩

/-- Euclidean norm, as `numpy.linalg.norm` on 3-vectors. -/
def norm (a : Vec3) : ℝ := Real.sqrt (a.x ^ 2 + a.y ^ 2 + a.z ^ 2)

/-- Scalar multiplication of a 3-vector. -/
def smul (c : ℝ) (a : Vec3) : Vec3 := ⟨c * a.x, c * a.y, c * a.z⟩

/-- Componentwise sum of 3-vectors. -/
def vadd (a b : Vec3) : Vec3 := ⟨a.x + b.x, a.y + b.y, a.z + b.z⟩

/-- Componentwise difference of 3-vectors. -/
def vsub (a b : Vec3) : Vec3 := ⟨a.x - b.x, a.y - b.y, a.z - b.z⟩

/-- `scipy.sign`: `-1` for negatives, `1` for positives, `0` at `0`. -/
def sign (x : ℝ) : ℝ := if x < 0 then -1 else if 0 < x then 1 else 0

/-- Modelled from the spec: `orbital.utilities.mod` (not under `src/`):
angle reduction into `[0, 2π)`, `mod x y = x - y·⌊x/y⌋` (numpy-style
floored modulo). -/
def mod (x y : ℝ) : ℝ := x - y * (⌊x / y⌋ : ℤ)

/-- Modelled from the spec: `orbital.utilities.mean_anomaly_from_eccentric`
(not under `src/`): `M = E − e·sin E`, exact, with the angle output reduced
into `[0, 2π)`. -/
def mean_anomaly_from_eccentric (e E : ℝ) : ℝ :=
  mod (E - e * Real.sin E) (2 * π)

/-- Modelled from the spec: `orbital.utilities.eccentric_anomaly_from_true`
(not under `src/`): the standard half-angle tangent relation
`E = 2·atan(sqrt((1−e)/(1+e))·tan(f/2))`, reduced into `[0, 2π)`. -/
def eccentric_anomaly_from_true (e f : ℝ) : ℝ :=
  mod (2 * Real.arctan (Real.sqrt ((1 - e) / (1 + e)) * Real.tan (f / 2))) (2 * π)

/-- Modelled from the spec: `orbital.utilities.mean_anomaly_from_true`
(not under `src/`): composition of `eccentric_anomaly_from_true` with
`mean_anomaly_from_eccentric`. -/
def mean_anomaly_from_true (e f : ℝ) : ℝ :=
  mean_anomaly_from_eccentric e (eccentric_anomaly_from_true e f)

/-- Modelled from the spec: `orbital.utilities.eccentric_anomaly_from_mean`
(not under `src/`) is an external iterative Kepler-equation solver; the spec
treats it as an opaque pure function `solve_kepler(e, M) -> E`, so we keep it
as an explicit function parameter. -/
def eccentric_anomaly_from_mean (solver : ℝ → ℝ → ℝ) (e M : ℝ) : ℝ :=
  solver e M

/-- Modelled from the spec: `orbital.utilities.true_anomaly_from_eccentric`
(not under `src/`): the half-angle tangent relation
`f = 2·atan(sqrt((1+e)/(1−e))·tan(E/2))`, reduced into `[0, 2π)`. -/
def true_anomaly_from_eccentric (e E : ℝ) : ℝ :=
  mod (2 * Real.arctan (Real.sqrt ((1 + e) / (1 - e)) * Real.tan (E / 2))) (2 * π)

/-- Modelled from the spec: `orbital.utilities.true_anomaly_from_mean`
(not under `src/`): composes the external Kepler solver with
`true_anomaly_from_eccentric`. -/
def true_anomaly_from_mean (solver : ℝ → ℝ → ℝ) (e M : ℝ) : ℝ :=
  true_anomaly_from_eccentric e (eccentric_anomaly_from_mean solver e M)

/-- Modelled from the spec: `orbital.utilities.orbit_radius`
(not under `src/`): `r = a(1−e²)/(1+e·cos f)`. -/
def orbit_radius (a e f : ℝ) : ℝ := a * (1 - e ^ 2) / (1 + e * Real.cos f)

/-- The external body collaborator, per the spec contract:
`{ mu, apoapsis_names, periapsis_names }`. -/
structure Body where
  mu : ℝ
  apoapsis_names : List String
  periapsis_names : List String

/-- The state of `KeplerianElements`: the stored attributes `_a`, `e`, `i`,
`raan`, `arg_pe`, `M0`, `body`, `ref_epoch`, `_M`, `_t` (in source order).
The fields `M` and `t` are the private attributes `_M` and `_t`; the epoch is
embedded as a real number of seconds so that epoch arithmetic
`(x − ref_epoch).sec` becomes plain subtraction. -/
structure KeplerianElements where
  a : ℝ
  e : ℝ
  i : ℝ
  raan : ℝ
  arg_pe : ℝ
  M0 : ℝ
  body : Body
  ref_epoch : ℝ
  M : ℝ
  t : ℝ

/-- `KeplerianElements.__init__`: stores the raw elements, sets `_M := M0`
and `_t := 0`, with no reduction mod 2π applied anywhere. -/
def initK (a e i raan arg_pe M0 : ℝ) (body : Body) (ref_epoch : ℝ) :
    KeplerianElements :=
  ⟨a, e, i, raan, arg_pe, M0, body, ref_epoch, M0, 0⟩

/-- The `n` property getter: mean motion `sqrt(mu / a³)`. -/
def n_get (k : KeplerianElements) : ℝ := Real.sqrt (k.body.mu / k.a ^ 3)

/-- The `T` property getter: period `2π/n`. -/
def T_get (k : KeplerianElements) : ℝ := 2 * π / n_get k

/-- The `apocenter_radius` property getter: `(1 + e)·a`. -/
def apocenter_radius (k : KeplerianElements) : ℝ := (1 + k.e) * k.a

/-- The `pericenter_radius` property getter: `(1 − e)·a`. -/
def pericenter_radius (k : KeplerianElements) : ℝ := (1 - k.e) * k.a

/-- The `M` property setter: `_M := mod(value, 2π)`; nothing else changes. -/
def M_set (k : KeplerianElements) (value : ℝ) : KeplerianElements :=
  ⟨k.a, k.e, k.i, k.raan, k.arg_pe, k.M0, k.body, k.ref_epoch,
    mod value (2 * π), k.t⟩

/-- The `E` property setter: `self.M = mean_anomaly_from_eccentric(self.e, value)`. -/
def E_set (k : KeplerianElements) (value : ℝ) : KeplerianElements :=
  M_set k (mean_anomaly_from_eccentric k.e value)

/-- The `f` property setter: `self.M = mean_anomaly_from_true(self.e, value)`. -/
def f_set (k : KeplerianElements) (value : ℝ) : KeplerianElements :=
  M_set k (mean_anomaly_from_true k.e value)

/-- The `a` property setter: store the new `_a` first, then fix
`M0 := mod(M − n·t, 2π)` where `n` is read from the new `a`. -/
def a_set (k : KeplerianElements) (value : ℝ) : KeplerianElements :=
  let k1 : KeplerianElements :=
    ⟨value, k.e, k.i, k.raan, k.arg_pe, k.M0, k.body, k.ref_epoch, k.M, k.t⟩
  ⟨k1.a, k1.e, k1.i, k1.raan, k1.arg_pe,
    mod (k1.M - n_get k1 * k1.t) (2 * π),
    k1.body, k1.ref_epoch, k1.M, k1.t⟩

/-- The `t` property setter: `_M := mod(M0 + n·value, 2π)`, `_t := value`. -/
def t_set (k : KeplerianElements) (value : ℝ) : KeplerianElements :=
  ⟨k.a, k.e, k.i, k.raan, k.arg_pe, k.M0, k.body, k.ref_epoch,
    mod (k.M0 + n_get k * value) (2 * π), value⟩

/-- The `epoch` property setter: `t := value − ref_epoch` (seconds), then
`_M := mod(M0 + n·t, 2π)`, `_t := t`. -/
def epoch_set (k : KeplerianElements) (value : ℝ) : KeplerianElements :=
  let t := value - k.ref_epoch
  ⟨k.a, k.e, k.i, k.raan, k.arg_pe, k.M0, k.body, k.ref_epoch,
    mod (k.M0 + n_get k * t) (2 * π), t⟩

/-- The `n` property setter: `a := (mu/value²)^(1/3)` through the `a` setter. -/
def n_set (k : KeplerianElements) (value : ℝ) : KeplerianElements :=
  a_set k ((k.body.mu / value ^ 2) ^ ((1 : ℝ) / 3))

/-- The `T` property setter: `a := (mu·value²/(4π²))^(1/3)` through the `a`
setter. -/
def T_set (k : KeplerianElements) (value : ℝ) : KeplerianElements :=
  a_set k ((k.body.mu * value ^ 2 / (4 * π ^ 2)) ^ ((1 : ℝ) / 3))

/-- The `E` property getter: `eccentric_anomaly_from_mean(e, _M)` via the
external solver. -/
def E_get (solver : ℝ → ℝ → ℝ) (k : KeplerianElements) : ℝ :=
  eccentric_anomaly_from_mean solver k.e k.M

/-- The `f` property getter: `true_anomaly_from_mean(e, _M)` via the external
solver. -/
def f_get (solver : ℝ → ℝ → ℝ) (k : KeplerianElements) : ℝ :=
  true_anomaly_from_mean solver k.e k.M

/-- The `U` property getter: radial unit vector from
`u = arg_pe + f`, `raan`, `i` (source lines 303-318). -/
def U_get (solver : ℝ → ℝ → ℝ) (k : KeplerianElements) : Vec3 :=
  let u := k.arg_pe + f_get solver k
  ⟨Real.cos u * Real.cos k.raan - Real.sin u * Real.sin k.raan * Real.cos k.i,
   Real.cos u * Real.sin k.raan + Real.sin u * Real.cos k.raan * Real.cos k.i,
   Real.sin u * Real.sin k.i⟩

/-- The `V` property getter: transversal unit vector (source lines 320-335). -/
def V_get (solver : ℝ → ℝ → ℝ) (k : KeplerianElements) : Vec3 :=
  let u := k.arg_pe + f_get solver k
  ⟨-Real.sin u * Real.cos k.raan - Real.cos u * Real.sin k.raan * Real.cos k.i,
   -Real.sin u * Real.sin k.raan + Real.cos u * Real.cos k.raan * Real.cos k.i,
   Real.cos u * Real.sin k.i⟩

/-- The `r` property getter: position `orbit_radius(a, e, f) · U`. -/
def r_get (solver : ℝ → ℝ → ℝ) (k : KeplerianElements) : Vec3 :=
  smul (orbit_radius k.a k.e (f_get solver k)) (U_get solver k)

/-- The `v` property getter: velocity `ṙ·U + (r·ḟ)·V` with
`ṙ = sqrt(mu/a)·e·sin f/sqrt(1−e²)` and
`r·ḟ = sqrt(mu/a)·(1+e·cos f)/sqrt(1−e²)`. -/
def v_get (solver : ℝ → ℝ → ℝ) (k : KeplerianElements) : Vec3 :=
  let r_dot := Real.sqrt (k.body.mu / k.a) * (k.e * Real.sin (f_get solver k)) /
    Real.sqrt (1 - k.e ^ 2)
  let rf_dot := Real.sqrt (k.body.mu / k.a) * (1 + k.e * Real.cos (f_get solver k)) /
    Real.sqrt (1 - k.e ^ 2)
  vadd (smul r_dot (U_get solver k)) (smul rf_dot (V_get solver k))

/-- `KeplerianElements.with_apside_altitudes`: sorts the two altitudes
(ascending, as `list.sort()` on a two-element list), takes the smaller as the
pericenter altitude and the larger as the apocenter altitude, converts each to
a radius and builds the elements.  The external helpers
`orbital.utilities.radius_from_altitude` and
`orbital.utilities.elements_for_apsides` are not under `src/`; the spec leaves
them abstract (plumbing and a closed formula respectively), so they are kept
as explicit function parameters (`elements_for_apsides` returns the pair
`(a, e)`). -/
def with_apside_altitudes (radius_from_altitude : ℝ → ℝ)
    (elements_for_apsides : ℝ → ℝ → ℝ × ℝ)
    (alt1 alt2 i raan arg_pe M0 : ℝ) (body : Body) (ref_epoch : ℝ) :
    KeplerianElements :=
  let pericenter_altitude := min alt1 alt2
  let apocenter_altitude := max alt1 alt2
  let apocenter_radius := radius_from_altitude apocenter_altitude
  let pericenter_radius := radius_from_altitude pericenter_altitude
  let ae := elements_for_apsides apocenter_radius pericenter_radius
  initK ae.1 ae.2 i raan arg_pe M0 body ref_epoch

/-- `KeplerianElements.with_apside_radii`: sorts the two radii (ascending),
takes the smaller as the pericenter radius and the larger as the apocenter
radius, and builds the elements via `elements_for_apsides`. -/
def with_apside_radii (elements_for_apsides : ℝ → ℝ → ℝ × ℝ)
    (radius1 radius2 i raan arg_pe M0 : ℝ) (body : Body) (ref_epoch : ℝ) :
    KeplerianElements :=
  let pericenter_radius := min radius1 radius2
  let apocenter_radius := max radius1 radius2
  let ae := elements_for_apsides apocenter_radius pericenter_radius
  initK ae.1 ae.2 i raan arg_pe M0 body ref_epoch

/-- `KeplerianElements.__getstate__`: the flat field set used for pickling,
with keys `_a, e, i, raan, arg_pe, M0, body, ref_epoch, _M, _t`. -/
structure OrbitStateDict where
  state_a : ℝ
  state_e : ℝ
  state_i : ℝ
  state_raan : ℝ
  state_arg_pe : ℝ
  state_M0 : ℝ
  state_body : Body
  state_ref_epoch : ℝ
  state_M : ℝ
  state_t : ℝ

/-- `KeplerianElements.__getstate__`: dumps each stored attribute into the
flat dictionary. -/
def getstate (k : KeplerianElements) : OrbitStateDict :=
  ⟨k.a, k.e, k.i, k.raan, k.arg_pe, k.M0, k.body, k.ref_epoch, k.M, k.t⟩

/-- `KeplerianElements.__setstate__`: restores each stored attribute from the
flat dictionary. -/
def setstate (s : OrbitStateDict) : KeplerianElements :=
  ⟨s.state_a, s.state_e, s.state_i, s.state_raan, s.state_arg_pe, s.state_M0,
    s.state_body, s.state_ref_epoch, s.state_M, s.state_t⟩

/-- `KeplerianElements.__getattr__`: dynamic apsis-name lookup.  It scans the
body's apoapsis names first, then its periapsis names, matching the pattern
`<name>_radius`; on a match it returns the corresponding radius property, and
otherwise raises `AttributeError` with a message naming the missing attribute
(the Python message wraps the class and attribute names in single quotes,
elided here). -/
def getattr_dyn (k : KeplerianElements) (attr : String) : Except String ℝ :=
  if k.body.apoapsis_names.any fun nm => attr == nm ++ "_radius" then
    Except.ok (apocenter_radius k)
  else if k.body.periapsis_names.any fun nm => attr == nm ++ "_radius" then
    Except.ok (pericenter_radius k)
  else
    Except.error ("KeplerianElements object has no attribute " ++ attr)

/-- The six values computed by the inverse transform (`v` setter). -/
structure Elements where
  el_a : ℝ
  el_e : ℝ
  el_i : ℝ
  el_raan : ℝ
  el_arg_pe : ℝ
  el_f : ℝ

/-- The node vector of the inverse transform: `n = ẑ × h` with
`h = r × v` (source lines 178-179). -/
def node_vector (rv vv : Vec3) : Vec3 := cross ⟨0, 0, 1⟩ (cross rv vv)

/-- The eccentricity vector of the inverse transform:
`ev = (1/mu)((|v|²−mu/|r|)r − (r·v)v)` (source line 184). -/
def ecc_vector (mu : ℝ) (rv vv : Vec3) : Vec3 :=
  smul (1 / mu)
    (vsub (smul (norm vv ^ 2 - mu / norm rv) rv) (smul (dot rv vv) vv))

/-- The inverse transform at the heart of the `v` setter (source lines
177-218): from `mu`, the current position vector `rv` and the assigned
velocity vector `vv`, compute the new elements.  Mirrors the source line by
line: `h = r × v`, `n = ẑ × h`, `ev = (1/mu)((|v|²−mu/|r|)r − (r·v)v)`,
`E = |v|²/2 − mu/|r|`, `a = −mu/(2E)`, `e = |ev|`, `i = acos(h_z/|h|)`, then
the inclination branch (note the source computes `raan = acos(ev[0]/|n|)`,
reading the eccentricity vector's x-component) and the eccentricity branch
(note the source clamps `d` to `sign(d)` under the test `|d| − 1 < 1e-15`). -/
def inverse_elements (mu : ℝ) (rv vv : Vec3) : Elements :=
  let h := cross rv vv
  let n := node_vector rv vv
  let ev := ecc_vector mu rv vv
  let Espec := norm vv ^ 2 / 2 - mu / norm rv
  let a := -mu / (2 * Espec)
  let e := norm ev
  let i := Real.arccos (h.z / norm h)
  let raan := if i = 0 then 0 else
    (let r0 := Real.arccos (ev.x / norm n)
     if n.y < 0 then 2 * π - r0 else r0)
  let argPe0 := if i = 0 then Real.arccos (ev.x / norm ev)
    else Real.arccos (dot n ev / (norm n * norm ev))
  if e = 0 then
    if i = 0 then
      let f0 := Real.arccos (rv.x / norm rv)
      ⟨a, e, i, raan, argPe0, if vv.x > 0 then 2 * π - f0 else f0⟩
    else
      let f0 := Real.arccos (dot n rv / (norm n * norm rv))
      ⟨a, e, i, raan, argPe0, if dot n vv > 0 then 2 * π - f0 else f0⟩
  else
    let argPe1 := if ev.z < 0 then 2 * π - argPe0 else argPe0
    let d0 := dot ev rv / (norm ev * norm rv)
    let d := if |d0| - 1 < 1e-15 then sign d0 else d0
    let f0 := Real.arccos d
    ⟨a, e, i, raan, argPe1, if dot rv vv < 0 then 2 * π - f0 else f0⟩

/-- The `v` property setter: reads the current position `self.r`, runs the
inverse transform, then assigns `self.a` (through the `a` setter, which fixes
`M0`), the plain attributes `e`, `i`, `raan`, `arg_pe`, and finally `self.f`
(through the `f` setter, which stores a new current mean anomaly). -/
def v_set (solver : ℝ → ℝ → ℝ) (k : KeplerianElements) (value : Vec3) :
    KeplerianElements :=
  let el := inverse_elements k.body.mu (r_get solver k) value
  let k1 := a_set k el.el_a
  let k2 : KeplerianElements :=
    ⟨k1.a, el.el_e, el.el_i, el.el_raan, el.el_arg_pe, k1.M0, k1.body,
      k1.ref_epoch, k1.M, k1.t⟩
  f_set k2 el.el_f

/-- Checked division: records a division whose denominator is exactly zero,
instead of the junk value a float division would produce.  Used to instrument
every division of the inverse transform whose denominator is a vector norm
(or another computed quantity) that degenerates to zero on circular or
equatorial inputs. -/
def cdiv (x y : ℝ) : Except String ℝ :=
  if y = 0 then Except.error "division by zero" else Except.ok (x / y)

/-- The raan/arg_pe stage of the inverse transform (source lines 192-199),
with every division checked.  Note that in the non-equatorial branch the
denominator of `arg_pe` is `|n|·|ev|`, which is zero whenever `e = 0`. -/
def anglesStageChecked (n ev : Vec3) (i : ℝ) : Except String (ℝ × ℝ) :=
  if i = 0 then do
    let q ← cdiv ev.x (norm ev)
    pure (0, Real.arccos q)
  else do
    let q ← cdiv ev.x (norm n)
    let r0 := Real.arccos q
    let raan := if n.y < 0 then 2 * π - r0 else r0
    let q2 ← cdiv (dot n ev) (norm n * norm ev)
    pure (raan, Real.arccos q2)

/-- The true-anomaly stage of the inverse transform (source lines 201-218),
with every division checked.  In the circular branch (`e = 0`) the reference
direction is the position against the x-axis (equatorial) or the node vector
(inclined); only the non-circular branch divides by `|ev|`. -/
def fStageChecked (rv vv n : Vec3) (e i : ℝ) (ev : Vec3) : Except String ℝ :=
  if e = 0 then
    if i = 0 then do
      let q ← cdiv rv.x (norm rv)
      let f0 := Real.arccos q
      pure (if vv.x > 0 then 2 * π - f0 else f0)
    else do
      let q ← cdiv (dot n rv) (norm n * norm rv)
      let f0 := Real.arccos q
      pure (if dot n vv > 0 then 2 * π - f0 else f0)
  else do
    let d0 ← cdiv (dot ev rv) (norm ev * norm rv)
    let d := if |d0| - 1 < 1e-15 then sign d0 else d0
    let f0 := Real.arccos d
    pure (if dot rv vv < 0 then 2 * π - f0 else f0)

/-- The whole inverse transform with every division checked, evaluated in
source order; the `arg_pe` quadrant flip of the non-circular branch (source
lines 211-212) is applied to the stage result. -/
def inverse_checked (mu : ℝ) (rv vv : Vec3) : Except String Elements := do
  let h := cross rv vv
  let n := cross ⟨0, 0, 1⟩ h
  let muOverR ← cdiv mu (norm rv)
  let invMu ← cdiv 1 mu
  let ev := smul invMu (vsub (smul (norm vv ^ 2 - muOverR) rv) (smul (dot rv vv) vv))
  let Espec := norm vv ^ 2 / 2 - muOverR
  let a ← cdiv (-mu) (2 * Espec)
  let e := norm ev
  let ci ← cdiv h.z (norm h)
  let i := Real.arccos ci
  let pr ← anglesStageChecked n ev i
  let argPe1 := if e = 0 then pr.2 else (if ev.z < 0 then 2 * π - pr.2 else pr.2)
  let f ← fStageChecked rv vv n e i ev
  pure ⟨a, e, i, pr.1, argPe1, f⟩

/-- Binding a successful `Except` computation runs the continuation. -/
theorem ok_bind {α β : Type} (a : α) (f : α → Except String β) :
    (Except.ok a >>= f) = f a := rfl

/-- Binding a failed `Except` computation propagates the error. -/
theorem error_bind {α β : Type} (s : String) (f : α → Except String β) :
    ((Except.error s : Except String α) >>= f) = Except.error s := rfl

/-- Checked division with a nonzero denominator is ordinary division. -/
theorem cdiv_ok {y : ℝ} (x : ℝ) (h : y ≠ 0) : cdiv x y = Except.ok (x / y) :=
  if_neg h

/-- Checked division by zero reports the error. -/
theorem cdiv_zero (x : ℝ) : cdiv x 0 = Except.error "division by zero" :=
  if_pos rfl

/-- Square root of a concrete perfect square. -/
theorem sqrt_val (x r : ℝ) (hr : 0 ≤ r) (h : x = r ^ 2) : Real.sqrt x = r := by
  rw [h, Real.sqrt_sq hr]

/-- Norm of a concrete vector from a sum-of-squares identity. -/
theorem norm_mk (a b c r : ℝ) (hr : 0 ≤ r) (h : a ^ 2 + b ^ 2 + c ^ 2 = r ^ 2) :
    norm ⟨a, b, c⟩ = r := by
  show Real.sqrt (a ^ 2 + b ^ 2 + c ^ 2) = r
  rw [h, Real.sqrt_sq hr]

/-- C2: assigning `a := x` stores the new semimajor axis, recomputes
`M0 = mod(M − n_new·t, 2π)` with `n_new = sqrt(mu/x³)`, and leaves the
instantaneously-read mean anomaly `M` and the elapsed time `t` unchanged
(`M0` being the adjusted quantity). -/
theorem claim_C2 (k : KeplerianElements) (x : ℝ) :
    (a_set k x).a = x ∧
    (a_set k x).M0 = mod (k.M - Real.sqrt (k.body.mu / x ^ 3) * k.t) (2 * π) ∧
    (a_set k x).M = k.M ∧
    (a_set k x).t = k.t := by
  exact ⟨rfl, rfl, rfl, rfl⟩

/-- C5: assigning `t := x` recomputes `M = mod(M0 + n·x, 2π)` and stores
`t = x`, leaving `M0` unchanged; assigning `epoch := x` first computes
`t = x − ref_epoch` (in seconds) and then applies exactly the same rule. -/
theorem claim_C5 (k : KeplerianElements) (x : ℝ) :
    (t_set k x).M = mod (k.M0 + n_get k * x) (2 * π) ∧
    (t_set k x).t = x ∧
    (t_set k x).M0 = k.M0 ∧
    epoch_set k x = t_set k (x - k.ref_epoch) := by
  exact ⟨rfl, rfl, rfl, rfl⟩

/-- C6: assigning `M := x` stores `mod(x, 2π)` into the current mean anomaly
and changes nothing else (`M0`, `t`, `a`, `e`, `i`, `raan`, `arg_pe`,
`ref_epoch`, `body` are all untouched); the `E` and `f` setters convert their
value to a mean anomaly and apply exactly the `M` rule, so they too change
only the current mean anomaly. -/
theorem claim_C6 (k : KeplerianElements) (x : ℝ) :
    (M_set k x).M = mod x (2 * π) ∧
    (M_set k x).M0 = k.M0 ∧ (M_set k x).t = k.t ∧ (M_set k x).a = k.a ∧
    (M_set k x).e = k.e ∧ (M_set k x).i = k.i ∧ (M_set k x).raan = k.raan ∧
    (M_set k x).arg_pe = k.arg_pe ∧ (M_set k x).ref_epoch = k.ref_epoch ∧
    (M_set k x).body = k.body ∧
    E_set k x = M_set k (mean_anomaly_from_eccentric k.e x) ∧
    f_set k x = M_set k (mean_anomaly_from_true k.e x) := by
  exact ⟨rfl, rfl, rfl, rfl, rfl, rfl, rfl, rfl, rfl, rfl, rfl, rfl⟩

/-- C10: immediately after construction from raw elements, `t = 0` and the
current mean anomaly equals the supplied `M0` exactly — the constructor does
not reduce `M0` (or `M`) mod 2π, unlike the `M` setter: with `M0 = 7` the
constructed state reads `M = 7`, while the `M` setter would store
`mod(7, 2π) = 7 − 2π ≠ 7`. -/
theorem claim_C10 (a e i raan arg_pe M0 : ℝ) (body : Body) (ref_epoch : ℝ) :
    (initK a e i raan arg_pe M0 body ref_epoch).M = M0 ∧
    (initK a e i raan arg_pe M0 body ref_epoch).t = 0 ∧
    (initK a e i raan arg_pe M0 body ref_epoch).M0 = M0 ∧
    (initK a e i raan arg_pe 7 body ref_epoch).M = 7 ∧
    (M_set (initK a e i raan arg_pe 7 body ref_epoch) 7).M ≠ 7 := by
  refine ⟨rfl, rfl, rfl, rfl, ?_⟩
  show mod 7 (2 * π) ≠ 7
  unfold mod
  have h1 : (1 : ℝ) ≤ 7 / (2 * π) := by
    rw [le_div_iff₀ (by positivity)]
    have := Real.pi_lt_d2
    linarith
  have h2 : 7 / (2 * π) < 2 := by
    rw [div_lt_iff₀ (by positivity)]
    have := Real.pi_gt_three
    linarith
  have hfloor : ⌊(7 : ℝ) / (2 * π)⌋ = 1 := by
    rw [Int.floor_eq_iff]
    constructor
    · exact_mod_cast h1
    · push_cast
      linarith
  rw [hfloor]
  push_cast
  intro h
  have : (2 : ℝ) * π = 0 := by linarith
  have := Real.pi_ne_zero
  nlinarith [Real.pi_pos]

/-- C7: the two-apside constructors are symmetric in their pair of arguments:
swapping the two altitudes (or the two radii) yields the same semimajor axis
and the same eccentricity, for every choice of the external
`radius_from_altitude` and `elements_for_apsides` helpers, because the pair is
internally sorted so the smaller value becomes the pericenter and the larger
the apocenter. -/
theorem claim_C7 (radius_from_altitude : ℝ → ℝ)
    (elements_for_apsides : ℝ → ℝ → ℝ × ℝ)
    (alt1 alt2 rad1 rad2 i raan arg_pe M0 : ℝ) (body : Body) (ref_epoch : ℝ) :
    (with_apside_altitudes radius_from_altitude elements_for_apsides
        alt1 alt2 i raan arg_pe M0 body ref_epoch).a =
      (with_apside_altitudes radius_from_altitude elements_for_apsides
        alt2 alt1 i raan arg_pe M0 body ref_epoch).a ∧
    (with_apside_altitudes radius_from_altitude elements_for_apsides
        alt1 alt2 i raan arg_pe M0 body ref_epoch).e =
      (with_apside_altitudes radius_from_altitude elements_for_apsides
        alt2 alt1 i raan arg_pe M0 body ref_epoch).e ∧
    (with_apside_radii elements_for_apsides
        rad1 rad2 i raan arg_pe M0 body ref_epoch).a =
      (with_apside_radii elements_for_apsides
        rad2 rad1 i raan arg_pe M0 body ref_epoch).a ∧
    (with_apside_radii elements_for_apsides
        rad1 rad2 i raan arg_pe M0 body ref_epoch).e =
      (with_apside_radii elements_for_apsides
        rad2 rad1 i raan arg_pe M0 body ref_epoch).e := by
  unfold with_apside_altitudes with_apside_radii
  rw [min_comm alt2 alt1, max_comm alt2 alt1, min_comm rad2 rad1,
    max_comm rad2 rad1]
  exact ⟨rfl, rfl, rfl, rfl⟩

/-- C8: dumping a state through `__getstate__` and rebuilding it through
`__setstate__` yields a state on which every derived read — `M`, `t`, `E`,
`f`, `n`, `T`, `apocenter_radius`, `pericenter_radius`, `r`, `v` — returns
exactly the value the original instance returns (for any external Kepler
solver used by the anomaly-dependent reads). -/
theorem claim_C8 (solver : ℝ → ℝ → ℝ) (k : KeplerianElements) :
    (setstate (getstate k)).M = k.M ∧
    (setstate (getstate k)).t = k.t ∧
    E_get solver (setstate (getstate k)) = E_get solver k ∧
    f_get solver (setstate (getstate k)) = f_get solver k ∧
    n_get (setstate (getstate k)) = n_get k ∧
    T_get (setstate (getstate k)) = T_get k ∧
    apocenter_radius (setstate (getstate k)) = apocenter_radius k ∧
    pericenter_radius (setstate (getstate k)) = pericenter_radius k ∧
    r_get solver (setstate (getstate k)) = r_get solver k ∧
    v_get solver (setstate (getstate k)) = v_get solver k := by
  exact ⟨rfl, rfl, rfl, rfl, rfl, rfl, rfl, rfl, rfl, rfl⟩

/-- C9: the dynamic apsis-name lookup returns `apocenter_radius = a(1+e)` for
an attribute matching `<name>_radius` with `<name>` among the body's apoapsis
names, `pericenter_radius = a(1−e)` for a match among the periapsis names
(apoapsis names are scanned first), and for every attribute matching neither
it fails with an attribute-not-found error whose message names the missing
attribute. -/
theorem claim_C9 (k : KeplerianElements) (attr : String) :
    ((∀ nm ∈ k.body.apoapsis_names, attr ≠ nm ++ "_radius") →
      (∀ nm ∈ k.body.periapsis_names, attr ≠ nm ++ "_radius") →
      getattr_dyn k attr =
        Except.error ("KeplerianElements object has no attribute " ++ attr)) ∧
    ((∃ nm ∈ k.body.apoapsis_names, attr = nm ++ "_radius") →
      getattr_dyn k attr = Except.ok (k.a * (1 + k.e))) ∧
    ((∀ nm ∈ k.body.apoapsis_names, attr ≠ nm ++ "_radius") →
      (∃ nm ∈ k.body.periapsis_names, attr = nm ++ "_radius") →
      getattr_dyn k attr = Except.ok (k.a * (1 - k.e))) := by
  refine ⟨?_, ?_, ?_⟩
  · intro hapo hperi
    unfold getattr_dyn
    rw [if_neg, if_neg]
    · simp only [List.any_eq_true, beq_iff_eq, not_exists, not_and]
      exact fun nm hmem hc => hperi nm hmem hc
    · simp only [List.any_eq_true, beq_iff_eq, not_exists, not_and]
      exact fun nm hmem hc => hapo nm hmem hc
  · intro hmatch
    unfold getattr_dyn
    rw [if_pos]
    · rw [apocenter_radius, mul_comm]
    · simp only [List.any_eq_true, beq_iff_eq]
      obtain ⟨nm, hnm, heq⟩ := hmatch
      exact ⟨nm, hnm, heq⟩
  · intro hapo hmatch
    unfold getattr_dyn
    rw [if_neg, if_pos]
    · rw [pericenter_radius, mul_comm]
    · simp only [List.any_eq_true, beq_iff_eq]
      obtain ⟨nm, hnm, heq⟩ := hmatch
      exact ⟨nm, hnm, heq⟩
    · simp only [List.any_eq_true, beq_iff_eq, not_exists, not_and]
      exact fun nm hmem hc => hapo nm hmem hc

/-- C9 witness: a body that names its apsides "apogee"/"perigee"; the unknown
attribute "spam" fails with a message naming it, while "apogee_radius" and
"perigee_radius" resolve to the two radius formulas. -/
theorem claim_C9_witness :
    getattr_dyn (initK 2 (1/2) 0 0 0 0 ⟨1, ["apogee"], ["perigee"]⟩ 0) "spam" =
      Except.error ("KeplerianElements object has no attribute " ++ "spam") ∧
    getattr_dyn (initK 2 (1/2) 0 0 0 0 ⟨1, ["apogee"], ["perigee"]⟩ 0)
        "apogee_radius" =
      Except.ok ((2 : ℝ) * (1 + 1/2)) ∧
    getattr_dyn (initK 2 (1/2) 0 0 0 0 ⟨1, ["apogee"], ["perigee"]⟩ 0)
        "perigee_radius" =
      Except.ok ((2 : ℝ) * (1 - 1/2)) := by
  refine ⟨?_, ?_, ?_⟩
  · exact (claim_C9 (initK 2 (1/2) 0 0 0 0 ⟨1, ["apogee"], ["perigee"]⟩ 0)
      "spam").1 (by decide) (by decide)
  · exact (claim_C9 (initK 2 (1/2) 0 0 0 0 ⟨1, ["apogee"], ["perigee"]⟩ 0)
      "apogee_radius").2.1 ⟨"apogee", by simp [initK], rfl⟩
  · exact (claim_C9 (initK 2 (1/2) 0 0 0 0 ⟨1, ["apogee"], ["perigee"]⟩ 0)
      "perigee_radius").2.2 (by decide) ⟨"perigee", by simp [initK], rfl⟩

/-- C1 counterexample: the claim as stated is false.  On the concrete
circular polar orbit `mu = 1`, `r = (1,0,0)`, `v = (0,0,1)` (for which
`ev = 0`, so `e = 0` exactly, and `i = π/2`), the inverse transform does
reach a division by the zero-length eccentricity vector's norm: the
non-equatorial branch computes `arg_pe = acos(n·ev/(|n|·|ev|))` with
`|ev| = 0`, unguarded by any circularity test.  The instrumented transform,
which errors exactly when a division with a zero denominator is evaluated,
rejects this input. -/
theorem claim_C1_cex :
    inverse_checked 1 ⟨1, 0, 0⟩ ⟨0, 0, 1⟩ = Except.error "division by zero" := by
  have hπ2 : (π / 2 : ℝ) ≠ 0 := by positivity
  unfold inverse_checked anglesStageChecked
  norm_num [cross, dot, smul, vsub, norm, cdiv, Real.sqrt_one, Real.sqrt_zero,
    Real.arccos_zero, hπ2, ok_bind, error_bind]

/-- C1 (amended): the true-anomaly computation of the inverse transform is
branch-guarded as claimed — on circular inputs (`|ev| = 0`) it measures the
position against the x-axis (equatorial case) or against the node vector
(inclined case) and performs no division by `|ev|`, succeeding whenever
`|r| ≠ 0` and, in the inclined case, `|n| ≠ 0`.  The original claim fails
only for the argument-of-periapsis computation, which divides by `|ev|` even
when `e = 0` (see the counterexample). -/
theorem claim_C1 (rv vv n ev : Vec3) (i : ℝ) (he : norm ev = 0)
    (hr : norm rv ≠ 0) (hn : i = 0 ∨ norm n ≠ 0) :
    ∃ fv, fStageChecked rv vv n (norm ev) i ev = Except.ok fv := by
  rw [he]
  unfold fStageChecked
  rw [if_pos rfl]
  by_cases hi : i = 0
  · rw [if_pos hi, cdiv_ok rv.x hr]
    exact ⟨_, rfl⟩
  · have hn2 : norm n ≠ 0 := hn.resolve_left hi
    rw [if_neg hi, cdiv_ok (dot n rv) (mul_ne_zero hn2 hr)]
    exact ⟨_, rfl⟩

/-- C1 witness: the amended theorem applied to the circular polar orbit of
the counterexample (`ev = 0`, `i = π/2`, node vector `(1,0,0)`): its
true-anomaly stage succeeds. -/
theorem claim_C1_witness :
    ∃ fv, fStageChecked ⟨1, 0, 0⟩ ⟨0, 0, 1⟩ ⟨1, 0, 0⟩ (norm ⟨0, 0, 0⟩) (π / 2)
      ⟨0, 0, 0⟩ = Except.ok fv :=
  claim_C1 ⟨1, 0, 0⟩ ⟨0, 0, 1⟩ ⟨1, 0, 0⟩ ⟨0, 0, 0⟩ (π / 2)
    (norm_mk 0 0 0 0 (by norm_num) (by norm_num))
    (by rw [norm_mk 1 0 0 1 (by norm_num) (by norm_num)]; exact one_ne_zero)
    (Or.inr (by rw [norm_mk 1 0 0 1 (by norm_num) (by norm_num)]; exact one_ne_zero))

/-- C3 evaluation at a failing input: the elliptical input `mu = 7`,
`r = (1,0,0)`, `v = (2,2,0)` (for which `e = 5/7` and the cosine argument is
`d = −3/5`, strictly inside `(−1,1)`, with `r·v = 2 ≥ 0` so no quadrant
flip applies) makes the non-circular branch return `f = π`: the source's
guard `|d| − 1 < 1e-15` is satisfied by every in-range cosine argument, so
`d` is replaced by `sign(d) = −1` and `f = acos(−1)`, not `acos(d)` as the
claim states. -/
theorem claim_C3_cex :
    (-1 : ℝ) < dot (ecc_vector 7 ⟨1, 0, 0⟩ ⟨2, 2, 0⟩) ⟨1, 0, 0⟩ /
        (norm (ecc_vector 7 ⟨1, 0, 0⟩ ⟨2, 2, 0⟩) * norm (⟨1, 0, 0⟩ : Vec3)) ∧
    dot (ecc_vector 7 ⟨1, 0, 0⟩ ⟨2, 2, 0⟩) ⟨1, 0, 0⟩ /
        (norm (ecc_vector 7 ⟨1, 0, 0⟩ ⟨2, 2, 0⟩) * norm (⟨1, 0, 0⟩ : Vec3)) < 1 ∧
    (0 : ℝ) ≤ dot ⟨1, 0, 0⟩ ⟨2, 2, 0⟩ ∧
    (inverse_elements 7 ⟨1, 0, 0⟩ ⟨2, 2, 0⟩).el_f = π ∧
    (inverse_elements 7 ⟨1, 0, 0⟩ ⟨2, 2, 0⟩).el_f ≠
      Real.arccos (dot (ecc_vector 7 ⟨1, 0, 0⟩ ⟨2, 2, 0⟩) ⟨1, 0, 0⟩ /
        (norm (ecc_vector 7 ⟨1, 0, 0⟩ ⟨2, 2, 0⟩) * norm (⟨1, 0, 0⟩ : Vec3))) := by
  have h8 : Real.sqrt 8 ^ 2 = 8 := Real.sq_sqrt (by norm_num)
  have hev : ecc_vector 7 ⟨1, 0, 0⟩ ⟨2, 2, 0⟩ = ⟨-3/7, -4/7, 0⟩ := by
    unfold ecc_vector
    norm_num [smul, vsub, dot, norm, h8, Vec3.mk.injEq]
  have hnev : norm ⟨-3/7, -4/7, 0⟩ = 5/7 :=
    norm_mk (-3/7) (-4/7) 0 (5/7) (by norm_num) (by norm_num)
  have hn1 : norm ⟨1, 0, 0⟩ = 1 := norm_mk 1 0 0 1 (by norm_num) (by norm_num)
  have hd0 : dot (ecc_vector 7 ⟨1, 0, 0⟩ ⟨2, 2, 0⟩) ⟨1, 0, 0⟩ /
      (norm (ecc_vector 7 ⟨1, 0, 0⟩ ⟨2, 2, 0⟩) * norm (⟨1, 0, 0⟩ : Vec3)) =
        -3/5 := by
    rw [hev, hnev, hn1]
    norm_num [dot]
  have habs : |(3/5 : ℝ)| = 3/5 := abs_of_pos (by norm_num)
  have h4 : Real.sqrt 4 = 2 := sqrt_val 4 2 (by norm_num) (by norm_num)
  have h2549 : Real.sqrt (25/49) = 5/7 :=
    sqrt_val (25/49) (5/7) (by norm_num) (by norm_num)
  have heval : (inverse_elements 7 ⟨1, 0, 0⟩ ⟨2, 2, 0⟩).el_f = π := by
    unfold inverse_elements node_vector
    norm_num [hev, cross, dot, smul, vsub, norm, sign, Real.sqrt_one, h4,
      h2549, Real.arccos_one, Real.arccos_neg_one, habs]
  refine ⟨?_, ?_, ?_, heval, ?_⟩
  · rw [hd0]; norm_num
  · rw [hd0]; norm_num
  · norm_num [dot]
  · rw [heval, hd0]
    intro h
    have h2 := h.symm
    rw [Real.arccos_eq_pi] at h2
    norm_num at h2

/-- C4 evaluation at a failing input: on the inclined elliptical input
`mu = 25`, `r = (1,0,0)`, `v = (1,3,4)` the node vector is `n = (4,0,0)`, so
the claimed formula gives `raan = acos(n_x/|n|) = acos(1) = 0`, while the
source's non-equatorial branch computes `raan = acos(ev[0]/|n|) =
acos(0/4) = π/2` — it reads the eccentricity vector's x-component instead of
the node vector's. -/
theorem claim_C4_cex :
    (inverse_elements 25 ⟨1, 0, 0⟩ ⟨1, 3, 4⟩).el_i ≠ 0 ∧
    (inverse_elements 25 ⟨1, 0, 0⟩ ⟨1, 3, 4⟩).el_raan = π / 2 ∧
    Real.arccos ((node_vector ⟨1, 0, 0⟩ ⟨1, 3, 4⟩).x /
      norm (node_vector ⟨1, 0, 0⟩ ⟨1, 3, 4⟩)) = 0 ∧
    (π / 2 : ℝ) ≠ 0 := by
  have h26 : Real.sqrt 26 ^ 2 = 26 := Real.sq_sqrt (by norm_num)
  have hev : ecc_vector 25 ⟨1, 0, 0⟩ ⟨1, 3, 4⟩ = ⟨0, -3/25, -4/25⟩ := by
    unfold ecc_vector
    norm_num [smul, vsub, dot, norm, h26, Vec3.mk.injEq]
  have h125 : Real.sqrt (1/25) = 1/5 :=
    sqrt_val (1/25) (1/5) (by norm_num) (by norm_num)
  have h25 : Real.sqrt 25 = 5 := sqrt_val 25 5 (by norm_num) (by norm_num)
  have h16 : Real.sqrt 16 = 4 := sqrt_val 16 4 (by norm_num) (by norm_num)
  have hi : Real.arccos (3/5) ≠ 0 := by
    rw [Ne, Real.arccos_eq_zero]
    norm_num
  have hnode : node_vector ⟨1, 0, 0⟩ ⟨1, 3, 4⟩ = ⟨4, 0, 0⟩ := by
    unfold node_vector
    norm_num [cross, Vec3.mk.injEq]
  have hπ2 : (π / 2 : ℝ) ≠ 0 := by positivity
  refine ⟨?_, ?_, ?_, hπ2⟩
  · unfold inverse_elements node_vector
    norm_num [hev, cross, dot, smul, vsub, norm, Real.sqrt_one, h125, h25,
      h16, hi]
  · unfold inverse_elements node_vector
    norm_num [hev, cross, dot, smul, vsub, norm, Real.sqrt_one, h125, h25,
      h16, hi, Real.arccos_zero]
  · rw [hnode]
    have : norm ⟨4, 0, 0⟩ = 4 := norm_mk 4 0 0 4 (by norm_num) (by norm_num)
    rw [this]
    show Real.arccos (4 / 4) = 0
    norm_num [Real.arccos_one]

end

end Orbital
